import Mathlib

/-!
Shallow embedding of the rubric/metrics module (`teval/metrics.py`): the
`MetricDefinition` and `EvaluationRubric` data model, construction-time
validation, the scoring engine (`validate_result`), report generation
(`generate_report`) and the alignment engine (`calculate_alignment`),
together with theorems about them.

Python values appearing in judgment mappings are modelled by the inductive
`JValue` (booleans, integers, strings, `None`); Python dictionaries are
modelled as association lists queried through `dictLookup`.  Python
exceptions are modelled with `Except`: the structured error constructors
carry the data interpolated into the Python message, and `render` functions
rebuild the exact message text.  Python float division of two counts is
modelled exactly as a rational (`Rat`).
-/

set_option maxHeartbeats 1000000

namespace Teval

/-- Decidable equality of `Except` results, so that concrete runs of the
embedded functions can be checked by `decide`. -/
instance {ε α : Type} [DecidableEq ε] [DecidableEq α] : DecidableEq (Except ε α) := fun x y =>
  match x, y with
  | .error e, .error f =>
    if h : e = f then .isTrue (congrArg Except.error h)
    else .isFalse (fun hc => h (Except.error.inj hc))
  | .ok a, .ok b =>
    if h : a = b then .isTrue (congrArg Except.ok h)
    else .isFalse (fun hc => h (Except.ok.inj hc))
  | .error _, .ok _ => .isFalse (fun hc => Except.noConfusion hc)
  | .ok _, .error _ => .isFalse (fun hc => Except.noConfusion hc)

/-- Model of a Python value stored in a judgment mapping: the cases the code
distinguishes are real booleans versus everything else (`isinstance(value, bool)`);
we carry integers, strings and `None` as representative non-boolean values. -/
inductive JValue where
  | bool (b : Bool)
  | int (n : Int)
  | str (s : String)
  | null
  deriving DecidableEq

/-- Python `type(value).__name__` for the modelled values. -/
def JValue.typeName : JValue → String
  | .bool _ => "bool"
  | .int _ => "int"
  | .str _ => "str"
  | .null => "NoneType"

/-- Python truthiness of a modelled value (used by `if not result[...]` and
`result.get(id, False)` in the source). -/
def JValue.truthy : JValue → Bool
  | .bool b => b
  | .int n => n != 0
  | .str s => s != ""
  | .null => false

/-- Whether a modelled value is a Python `bool` (`isinstance(value, bool)`). -/
def JValue.isBool : JValue → Bool
  | .bool _ => true
  | _ => false

/-- Python dictionary lookup, modelled over an association list (first
binding wins, which matches a dictionary since its keys are unique). -/
def dictLookup {α : Type} : List (String × α) → String → Option α
  | [], _ => none
  | (k, v) :: rest, key => if k = key then some v else dictLookup rest key

/-- Python string slicing `s[:n]`: the first `n` characters (code points). -/
def pyTake (s : String) (n : Nat) : String :=
  ⟨s.data.take n⟩

/-- Whether the character list `p` is an initial segment of `cs`. -/
def charsStart : List Char → List Char → Bool
  | [], _ => true
  | _ :: _, [] => false
  | c :: cs, d :: ds => c == d && charsStart cs ds

/-- Python `s.startswith(p)`, by code points. -/
def pyStartsWith (s p : String) : Bool :=
  charsStart p.data s.data

/-- Structure `MetricDefinition`: a single Yes/No evaluation metric
(`id`, `rubric` text, `mandatory` flag). -/
structure MetricDefinition where
  id : String
  rubric : String
  mandatory : Bool
  deriving DecidableEq

/-- The Python 3 keywords (`keyword.iskeyword`). -/
def pythonKeywords : List String :=
  ["False", "None", "True", "and", "as", "assert", "async", "await",
   "break", "class", "continue", "def", "del", "elif", "else", "except",
   "finally", "for", "from", "global", "if", "import", "in", "is",
   "lambda", "nonlocal", "not", "or", "pass", "raise", "return", "try",
   "while", "with", "yield"]

/-- Reserved Pydantic model attribute names from `validate_metric_id`. -/
def reservedAttrs : List String :=
  ["model_", "passes", "get_failed_metrics", "get_passed_metrics",
   "to_report", "dict", "json", "copy", "parse", "schema", "validate",
   "construct", "fields", "config"]

/-- Python `str.isidentifier` restricted to ASCII, which is the rule the
source documents ("IDs must start with a letter or underscore, and contain
only letters, numbers, and underscores"). -/
def isAsciiIdentifier (s : String) : Bool :=
  match s.data with
  | [] => false
  | c :: cs => (c.isAlpha || c == '_') && cs.all (fun d => d.isAlpha || d.isDigit || d == '_')

/-- Model of `MetricDefinition.validate_metric_id`: the pydantic field validator for
metric ids, checking (in source order) emptiness, length, identifier
syntax, Python keywords, and reserved Pydantic attribute names. -/
def validate_metric_id (metric_id : String) : Except String String :=
  if metric_id = "" then
    .error "Metric ID cannot be empty"
  else if 100 < metric_id.length then
    .error ("Metric ID '" ++ pyTake metric_id 50 ++ "...' is too long (max 100 characters)")
  else if !isAsciiIdentifier metric_id then
    .error ("Metric ID '" ++ metric_id ++ "' is not a valid identifier. " ++
      "IDs must start with a letter or underscore, and contain only " ++
      "letters, numbers, and underscores.")
  else if pythonKeywords.contains metric_id then
    .error ("Metric ID '" ++ metric_id ++ "' is a Python keyword and cannot be used. " ++
      "Please choose a different ID.")
  else if reservedAttrs.contains metric_id || pyStartsWith metric_id "model_" then
    .error ("Metric ID '" ++ metric_id ++ "' conflicts with reserved Pydantic model attributes. " ++
      "Please choose a different ID.")
  else
    .ok metric_id

/-- Construction of a `MetricDefinition` (pydantic validation of the `id`
field via `validate_metric_id`; the other fields have no validators). -/
def mkMetricDefinition (i rubricText : String) (mand : Bool) : Except String MetricDefinition :=
  match validate_metric_id i with
  | .error e => .error e
  | .ok okId => .ok { id := okId, rubric := rubricText, mandatory := mand }

/-- Structure `EvaluationRubric`: rubric id, ordered metric list, and the minimum
count of passed cumulative metrics.  The threshold is an `Int` because the
Python field is an `int` whose non-negativity is enforced by a validator,
not by the type. -/
structure EvaluationRubric where
  rubric_id : String
  metrics : List MetricDefinition
  passing_score_threshold : Int
  deriving DecidableEq

/-- Property `EvaluationRubric.mandatory_metrics`: the metrics with `mandatory=True`. -/
def EvaluationRubric.mandatory_metrics (r : EvaluationRubric) : List MetricDefinition :=
  r.metrics.filter (fun m => m.mandatory)

/-- Property `EvaluationRubric.cumulative_metrics`: the metrics with `mandatory=False`. -/
def EvaluationRubric.cumulative_metrics (r : EvaluationRubric) : List MetricDefinition :=
  r.metrics.filter (fun m => !m.mandatory)

/-- Whether some metric id occurs more than once in the list
(`duplicates = [id for id in set(ids) if ids.count(id) > 1]` being non-empty). -/
def hasDuplicateIds (metrics : List MetricDefinition) : Bool :=
  let ids := metrics.map (fun m => m.id)
  ids.any (fun i => 1 < ids.count i)

/-- Construction of an `EvaluationRubric`, running the pydantic validators in
field order: `validate_metrics_list` (empty list, total limit 100, mandatory
limit 20, duplicate ids), then the `ge=0` constraint on the threshold, then
`check_threshold_validity` (threshold must not exceed the cumulative count). -/
def mkEvaluationRubric (rid : String) (metrics : List MetricDefinition)
    (threshold : Int) : Except String EvaluationRubric :=
  if metrics = [] then
    .error ("Evaluation rubric must contain at least one metric. " ++
      "Add MetricDefinition instances to the metrics list.")
  else if 100 < metrics.length then
    .error ("Too many metrics: " ++ toString metrics.length ++
      " exceeds maximum of 100. " ++
      "Consider splitting into multiple rubrics or reducing metric count.")
  else if 20 < (metrics.filter (fun m => m.mandatory)).length then
    .error ("Too many mandatory metrics: " ++
      toString (metrics.filter (fun m => m.mandatory)).length ++
      " exceeds maximum of 20. " ++
      "Consider making some metrics cumulative instead of mandatory.")
  else if hasDuplicateIds metrics then
    .error ("Duplicate metric IDs found: " ++
      String.intercalate ", "
        ((((metrics.map (fun m => m.id)).filter
            (fun i => 1 < (metrics.map (fun m => m.id)).count i)).dedup).mergeSort
          (fun a b => decide (a ≤ b))) ++
      ". Each metric must have a unique ID.")
  else if threshold < 0 then
    .error "Input should be greater than or equal to 0"
  else if ((metrics.filter (fun m => !m.mandatory)).length : Int) < threshold then
    .error ("Invalid passing threshold: " ++ toString threshold ++
      " exceeds the number of cumulative metrics (" ++
      toString (metrics.filter (fun m => !m.mandatory)).length ++ "). " ++
      "Rubric has " ++ toString (metrics.filter (fun m => m.mandatory)).length ++
      " mandatory metric(s) and " ++
      toString (metrics.filter (fun m => !m.mandatory)).length ++ " cumulative metric(s). " ++
      "Please set passing_score_threshold to " ++
      toString (metrics.filter (fun m => !m.mandatory)).length ++ " or lower.")
  else
    .ok { rubric_id := rid, metrics := metrics, passing_score_threshold := threshold }

/-- Structured form of the `ValueError`s raised by `validate_result`,
carrying the data interpolated into the Python message; `EvalError.render`
rebuilds the text. -/
inductive EvalError where
  | missingMetrics (mandatoryMissing cumulativeMissing : List String)
  | nonBoolValue (metricId typeFound rubricText : String)
  deriving DecidableEq

/-- The lines of the missing-metrics error message: header with the total
count, a `Mandatory:` line when mandatory ids are missing, a `Cumulative:`
line when cumulative ids are missing, and a trailing reminder. -/
def missingLines (mandatoryMissing cumulativeMissing : List String) : List String :=
  ["Missing evaluation results for " ++
     toString (mandatoryMissing.length + cumulativeMissing.length) ++ " metric(s):"]
  ++ (if mandatoryMissing.isEmpty then [] else
       ["  Mandatory: " ++ String.intercalate ", " mandatoryMissing])
  ++ (if cumulativeMissing.isEmpty then [] else
       ["  Cumulative: " ++ String.intercalate ", " cumulativeMissing])
  ++ ["All metrics defined in the rubric must have boolean results."]

/-- The message text of each `validate_result` error, as the Python code
formats it. -/
def EvalError.render : EvalError → String
  | .missingMetrics mm cm => String.intercalate "\n" (missingLines mm cm)
  | .nonBoolValue metricId typeFound rubricText =>
      "Invalid result for metric '" ++ metricId ++ "': expected boolean, got " ++
      typeFound ++ ". Metric rubric: '" ++ pyTake rubricText 50 ++
      (if 50 < rubricText.length then "..." else "") ++ "'"

/-- Python `result.get(metric.id, False)` / `result[metric.id]` (the latter
is only evaluated once presence has been validated, so the default never
shows through). -/
def resultGet (result : List (String × JValue)) (key : String) : JValue :=
  (dictLookup result key).getD (JValue.bool false)

/-- The first metric (in rubric order) whose value in the mapping is not a
boolean, reported as the source reports it.  The source re-looks-up
`metric_def = next(m for m in self.metrics if m.id == metric.id)`, which is
the same metric because two metrics with one id have one value. -/
def firstNonBool (result : List (String × JValue)) :
    List MetricDefinition → Option EvalError
  | [] => none
  | m :: ms =>
    match dictLookup result m.id with
    | some (JValue.bool _) => firstNonBool result ms
    | some v => some (EvalError.nonBoolValue m.id v.typeName m.rubric)
    | none => firstNonBool result ms

/-- The source's `missing_metrics` local: the ids of rubric metrics absent
from the mapping, in rubric order. -/
def missingIds (r : EvaluationRubric) (result : List (String × JValue)) : List String :=
  (r.metrics.filter (fun m => (dictLookup result m.id).isNone)).map (fun m => m.id)

/-- The source's `mandatory_missing` local: the missing ids belonging to a
mandatory metric. -/
def mandMissing (r : EvaluationRubric) (result : List (String × JValue)) : List String :=
  (missingIds r result).filter (fun s => r.metrics.any (fun m => m.id == s && m.mandatory))

/-- The source's `cumulative_missing` local: the missing ids that are not in
`mandMissing`. -/
def cumMissing (r : EvaluationRubric) (result : List (String × JValue)) : List String :=
  (missingIds r result).filter (fun s => !((mandMissing r result).contains s))

/-- Model of `EvaluationRubric.validate_result` on a mapping (the source also accepts
a JSON string, which it parses into exactly such a mapping before this
algorithm runs; that ingestion step is outside the claims and not modelled):
check that every metric id is present, check that every present value is a
boolean, then fail if a mandatory metric is false, fail if the count of
true cumulative metrics is below the threshold, and pass otherwise. -/
def EvaluationRubric.validate_result (r : EvaluationRubric)
    (result : List (String × JValue)) : Except EvalError Bool :=
  if (missingIds r result).isEmpty then
    match firstNonBool result r.metrics with
    | some e => .error e
    | none =>
      if r.mandatory_metrics.any (fun m => !(resultGet result m.id).truthy) then
        .ok false
      else if ((r.cumulative_metrics.countP
          (fun m => (resultGet result m.id).truthy) : Int) < r.passing_score_threshold) then
        .ok false
      else
        .ok true
  else
    .error (.missingMetrics (mandMissing r result) (cumMissing r result))

/-- The `"✓"`/`"✗"` marker the report uses for a metric. -/
def statusSymbol (passed : Bool) : String :=
  if passed then "✓" else "✗"

/-- The `"PASS"`/`"FAIL"` text the report uses for a metric. -/
def statusText (passed : Bool) : String :=
  if passed then "PASS" else "FAIL"

/-- The optional indented reasoning line under a metric: emitted when
`reasoning.get(metric.id)` is truthy (present, not `None`, not empty). -/
def reasoningLines (reasoning : List (String × Option String)) (metricId : String) :
    List String :=
  match (dictLookup reasoning metricId).getD none with
  | some s => if s = "" then [] else ["  → " ++ s]
  | none => []

/-- The report lines for one metric: marker line, optional reasoning line,
and a blank separator line. -/
def metricReportBlock (result : List (String × JValue))
    (reasoning : List (String × Option String)) (m : MetricDefinition) : List String :=
  let passed := (resultGet result m.id).truthy
  [statusSymbol passed ++ " **" ++ m.id ++ "** [" ++ statusText passed ++ "]: " ++ m.rubric]
  ++ reasoningLines reasoning m.id ++ [""]

/-- The mandatory-criteria section of the report (only emitted when the
rubric has mandatory metrics): heading, one block per mandatory metric, and
a warning listing the failed mandatory ids when there are any. -/
def mandatorySection (r : EvaluationRubric) (result : List (String × JValue))
    (reasoning : List (String × Option String)) : List String :=
  ["## Mandatory Criteria (ALL must pass)", ""]
  ++ r.mandatory_metrics.flatMap (metricReportBlock result reasoning)
  ++ (if ((r.mandatory_metrics.filter
          (fun m => !(resultGet result m.id).truthy)).map (fun m => m.id)).isEmpty then []
      else
        ["⚠️  **" ++ toString ((r.mandatory_metrics.filter
             (fun m => !(resultGet result m.id).truthy)).map (fun m => m.id)).length ++
           " mandatory metric(s) failed:** " ++
           String.intercalate ", " ((r.mandatory_metrics.filter
             (fun m => !(resultGet result m.id).truthy)).map (fun m => m.id)), ""])

/-- The cumulative-criteria section of the report (only emitted when the
rubric has cumulative metrics): heading, score line, one block per
cumulative metric, and a warning with the shortfall when below threshold. -/
def cumulativeSection (r : EvaluationRubric) (result : List (String × JValue))
    (reasoning : List (String × Option String)) : List String :=
  ["## Cumulative Criteria",
   "**Score: " ++
     toString (r.cumulative_metrics.countP (fun m => (resultGet result m.id).truthy)) ++
     "/" ++ toString r.cumulative_metrics.length ++
     "** (Required: " ++ toString r.passing_score_threshold ++ ")",
   ""]
  ++ r.cumulative_metrics.flatMap (metricReportBlock result reasoning)
  ++ (if ((r.cumulative_metrics.countP
          (fun m => (resultGet result m.id).truthy) : Int) < r.passing_score_threshold) then
        ["⚠️  **Need " ++ toString (r.passing_score_threshold -
             (r.cumulative_metrics.countP
               (fun m => (resultGet result m.id).truthy) : Int)) ++
           " more cumulative metric(s) to pass**", ""]
      else [])

/-- The trailing requirements summary of the report, with sub-blocks for the
mandatory and cumulative requirements, each only when such metrics exist. -/
def summarySection (r : EvaluationRubric) (result : List (String × JValue)) : List String :=
  ["## Requirements for Passing", ""]
  ++ (if r.mandatory_metrics.isEmpty then [] else
       ["**Mandatory criteria (ALL must pass):**"]
       ++ r.mandatory_metrics.map
            (fun m => "  " ++ statusSymbol ((resultGet result m.id).truthy) ++ " " ++ m.id)
       ++ [""])
  ++ (if r.cumulative_metrics.isEmpty then [] else
       ["**Cumulative criteria:**",
        "  - Need at least " ++ toString r.passing_score_threshold ++ " of " ++
          toString r.cumulative_metrics.length ++ " to pass",
        "  - Currently passed: " ++
          toString (r.cumulative_metrics.countP (fun m => (resultGet result m.id).truthy))]
       ++ (if ((r.cumulative_metrics.countP
               (fun m => (resultGet result m.id).truthy) : Int) <
             r.passing_score_threshold) then
             ["  - Still need: " ++ toString (r.passing_score_threshold -
                  (r.cumulative_metrics.countP
                    (fun m => (resultGet result m.id).truthy) : Int)) ++ " more"]
           else []))

/-- The leading lines of the report: the title line (a `title` that is
absent or empty falls back to the default, which is the Python truthiness
test `title if title else ...`) and the overall PASS/FAIL line. -/
def titleBlock (r : EvaluationRubric) (title : Option String)
    (overall_pass : Bool) : List String :=
  ["# " ++ (match title with
    | some t => if t = "" then "Evaluation Report: " ++ r.rubric_id else t
    | none => "Evaluation Report: " ++ r.rubric_id), "",
   "**Overall Result: " ++ (if overall_pass then "PASS" else "FAIL") ++ "**", ""]

/-- All lines of the report, given the already-computed overall outcome. -/
def reportLines (r : EvaluationRubric) (result : List (String × JValue))
    (reasoning : List (String × Option String)) (title : Option String)
    (overall_pass : Bool) : List String :=
  titleBlock r title overall_pass
  ++ (if r.mandatory_metrics.isEmpty then [] else mandatorySection r result reasoning)
  ++ (if r.cumulative_metrics.isEmpty then [] else cumulativeSection r result reasoning)
  ++ summarySection r result

/-- Model of `EvaluationRubric.generate_report`: computes the overall outcome via
`validate_result` (propagating its error unchanged, in which case no text is
produced) and then renders the report lines joined with newlines. -/
def EvaluationRubric.generate_report (r : EvaluationRubric)
    (result : List (String × JValue)) (reasoning : List (String × Option String))
    (title : Option String) : Except EvalError String :=
  match r.validate_result result with
  | .error e => .error e
  | .ok b => .ok (String.intercalate "\n" (reportLines r result reasoning title b))

/-- Which of the two arguments of `calculate_alignment` an element came from. -/
inductive ArgSide where
  | a
  | b
  deriving DecidableEq

/-- An element of a `calculate_alignment` argument: an evaluation-result
model instance from `to_pydantic_model` (a `BaseModel` whose boolean field
values are given by `valuation` and which has a `passes` method), some other
`BaseModel` instance (which lacks `passes`), or a non-`BaseModel` object. -/
inductive AlignItem where
  | model (valuation : String → Bool)
  | plainModel
  | notModel

/-- An argument of `calculate_alignment`: a single (non-list) object or a
list of objects. -/
inductive AlignArg where
  | item (x : AlignItem)
  | list (xs : List AlignItem)

/-- Structured form of the `TypeError`s/`ValueError`s raised by
`calculate_alignment`. -/
inductive AlignError where
  | typeMismatch
  | notModelOrList
  | lengthMismatch (lenA lenB : Nat)
  | itemNotBaseModel (side : ArgSide) (index : Nat)
  | noPasses
  deriving DecidableEq

/-- The Python exception class used for each alignment error. -/
inductive ErrKind where
  | typeError
  | valueError
  deriving DecidableEq

/-- Errors: `lengthMismatch` is raised as a `ValueError`; every other alignment
error is raised as a `TypeError`. -/
def AlignError.kind : AlignError → ErrKind
  | .lengthMismatch _ _ => .valueError
  | _ => .typeError

/-- The position information carried by an alignment error: only
`itemNotBaseModel` names an element's side and index. -/
def AlignError.position : AlignError → Option (ArgSide × Nat)
  | .itemNotBaseModel side i => some (side, i)
  | _ => none

/-- The message text of each alignment error, as the Python code formats it. -/
def AlignError.render : AlignError → String
  | .typeMismatch =>
      "Both results_a and results_b must be either single instances or lists"
  | .notModelOrList =>
      "results_a and results_b must be BaseModel instances or lists of BaseModel instances"
  | .lengthMismatch lenA lenB =>
      "Results lists must have the same length. Got " ++ toString lenA ++
      " for results_a and " ++ toString lenB ++ " for results_b"
  | .itemNotBaseModel .a i => "results_a[" ++ toString i ++ "] is not a BaseModel instance"
  | .itemNotBaseModel .b i => "results_b[" ++ toString i ++ "] is not a BaseModel instance"
  | .noPasses =>
      "Results must be instances from to_pydantic_model() with passes() method"

/-- Python `isinstance(x, BaseModel)` for an element. -/
def AlignItem.isBaseModel : AlignItem → Bool
  | .model _ => true
  | .plainModel => true
  | .notModel => false

/-- Python `hasattr(x, 'passes')` for an element. -/
def AlignItem.hasPasses : AlignItem → Bool
  | .model _ => true
  | _ => false

/-- The judgment mapping a generated model instance submits to
`validate_result` from `passes()`: one boolean entry per rubric metric. -/
def instanceDict (r : EvaluationRubric) (v : String → Bool) : List (String × JValue) :=
  r.metrics.map (fun m => (m.id, JValue.bool (v m.id)))

/-- The generated model's `passes()` method: `validate_result` on the
instance's own fields.  The error branch is unreachable because the
instance always supplies a boolean for every metric id. -/
def EvaluationRubric.passes (r : EvaluationRubric) (v : String → Bool) : Bool :=
  match r.validate_result (instanceDict r v) with
  | .ok b => b
  | .error _ => false

/-- The pass outcome of an element; only meaningful for `model` elements
(the others fail the `hasattr` guard before this is consulted). -/
def itemPasses (r : EvaluationRubric) : AlignItem → Bool
  | .model v => r.passes v
  | _ => false

/-- The per-position `isinstance` validation loop of `calculate_alignment`:
the first non-`BaseModel` element (checking side a before side b at each
index) yields a positioned error. -/
def checkItems : List AlignItem → List AlignItem → Nat → Option AlignError
  | x :: xs, y :: ys, i =>
    if !x.isBaseModel then some (.itemNotBaseModel .a i)
    else if !y.isBaseModel then some (.itemNotBaseModel .b i)
    else checkItems xs ys (i + 1)
  | _, _, _ => none

/-- The alignment-counting loop: each pair must have `passes` on both sides
(otherwise the un-positioned `noPasses` error), and a pair counts when the
two pass outcomes agree. -/
def alignedCount (r : EvaluationRubric) :
    List AlignItem → List AlignItem → Except AlignError Nat
  | x :: xs, y :: ys =>
    if !x.hasPasses || !y.hasPasses then .error .noPasses
    else
      match alignedCount r xs ys with
      | .error e => .error e
      | .ok c => .ok ((if itemPasses r x == itemPasses r y then 1 else 0) + c)
  | _, _ => .ok 0

/-- The body of `calculate_alignment` once both arguments are lists: length
check, per-element `isinstance` check, the empty-list convention (`1.0`),
then the counting loop and the final division. -/
def alignLists (r : EvaluationRubric) (la lb : List AlignItem) : Except AlignError Rat :=
  if la.length ≠ lb.length then .error (.lengthMismatch la.length lb.length)
  else
    match checkItems la lb 0 with
    | some e => .error e
    | none =>
      if la.length = 0 then .ok 1
      else
        match alignedCount r la lb with
        | .error e => .error e
        | .ok c => .ok ((c : Rat) / (la.length : Rat))

/-- Python `isinstance(arg, BaseModel)` on a whole argument (a list is never
a `BaseModel`). -/
def AlignArg.isSingleBaseModel : AlignArg → Bool
  | .item x => x.isBaseModel
  | .list _ => false

/-- Model of `EvaluationRubric.calculate_alignment`: mixing a single `BaseModel` with
a list is a `TypeError`; two single `BaseModel`s are wrapped into one-element
lists; two lists proceed; anything else (a non-list, non-`BaseModel`
argument) is a `TypeError`. -/
def EvaluationRubric.calculate_alignment (r : EvaluationRubric)
    (results_a results_b : AlignArg) : Except AlignError Rat :=
  if results_a.isSingleBaseModel ≠ results_b.isSingleBaseModel then
    .error .typeMismatch
  else
    match results_a, results_b with
    | .item x, .item y =>
        if x.isBaseModel then alignLists r [x] [y] else .error .notModelOrList
    | .list xs, .list ys => alignLists r xs ys
    | _, _ => .error .notModelOrList

/-! ### Helper lemmas -/

theorem mkMetricDefinition_isOk (i d : String) (b : Bool) :
    (mkMetricDefinition i d b).isOk = (validate_metric_id i).isOk := by
  unfold mkMetricDefinition
  cases validate_metric_id i <;> rfl

theorem validate_metric_id_isOk_iff (i : String) :
    ((validate_metric_id i).isOk = false ↔
      (i = "" ∨ 100 < i.length ∨ isAsciiIdentifier i = false ∨
       pythonKeywords.contains i = true ∨ reservedAttrs.contains i = true ∨
       pyStartsWith i "model_" = true)) := by
  unfold validate_metric_id
  split_ifs with h1 h2 h3 h4 h5 <;>
    simp_all [Except.isOk, Except.toBool]

/-! ### Claim theorems -/

/-- Claim C7: constructing a `MetricDefinition` fails with a validation error
exactly when the id is empty, longer than 100 characters, not an
identifier, a Python keyword, or a reserved Pydantic attribute name
(including any id starting with the reserved prefix `model_`); in
particular `"123abc"`, `"has space"`, `"class"` and `"model_dump"` fail
while `"M1"` succeeds. -/
theorem mkMetricDefinition_error_iff :
    (∀ (i d : String) (b : Bool),
      ((mkMetricDefinition i d b).isOk = false ↔
        (i = "" ∨ 100 < i.length ∨ isAsciiIdentifier i = false ∨
         pythonKeywords.contains i = true ∨ reservedAttrs.contains i = true ∨
         pyStartsWith i "model_" = true))) ∧
    (mkMetricDefinition "123abc" "desc" false).isOk = false ∧
    (mkMetricDefinition "has space" "desc" false).isOk = false ∧
    (mkMetricDefinition "class" "desc" false).isOk = false ∧
    (mkMetricDefinition "model_dump" "desc" false).isOk = false ∧
    mkMetricDefinition "M1" "desc" false = .ok ⟨"M1", "desc", false⟩ := by
  refine ⟨fun i d b => ?_, by decide, by decide, by decide, by decide, by decide⟩
  rw [mkMetricDefinition_isOk]
  exact validate_metric_id_isOk_iff i

/-- Claim C2: constructing an `EvaluationRubric` fails with a validation
error if and only if the metric list is empty, the total count exceeds 100,
the mandatory count exceeds 20, some metric id is duplicated, the threshold
is negative, or the threshold exceeds the count of cumulative metrics;
when no invariant is violated the construction succeeds with the given
fields. -/
theorem mkEvaluationRubric_error_iff (rid : String) (ms : List MetricDefinition) (t : Int) :
    ((mkEvaluationRubric rid ms t).isOk = false ↔
      (ms = [] ∨ 100 < ms.length ∨ 20 < (ms.filter (fun m => m.mandatory)).length ∨
       hasDuplicateIds ms = true ∨ t < 0 ∨
       ((ms.filter (fun m => !m.mandatory)).length : Int) < t)) ∧
    (¬(ms = [] ∨ 100 < ms.length ∨ 20 < (ms.filter (fun m => m.mandatory)).length ∨
       hasDuplicateIds ms = true ∨ t < 0 ∨
       ((ms.filter (fun m => !m.mandatory)).length : Int) < t) →
      mkEvaluationRubric rid ms t = .ok ⟨rid, ms, t⟩) := by
  constructor
  · unfold mkEvaluationRubric
    split_ifs with h1 h2 h3 h4 h5 h6 <;> simp_all [Except.isOk, Except.toBool]
  · intro hn
    unfold mkEvaluationRubric
    split_ifs with h1 h2 h3 h4 h5 h6 <;> tauto

/-- Witness for C2: a concrete valid rubric constructs successfully, and the
same theorem's error characterization holds for it. -/
theorem mkEvaluationRubric_error_iff_witness :
    mkEvaluationRubric "r" [⟨"M1", "d", true⟩, ⟨"C1", "e", false⟩] 1 =
      .ok ⟨"r", [⟨"M1", "d", true⟩, ⟨"C1", "e", false⟩], 1⟩ :=
  (mkEvaluationRubric_error_iff "r" [⟨"M1", "d", true⟩, ⟨"C1", "e", false⟩] 1).2 (by decide)

/-- Claim C10: `generate_report` propagates any `validate_result` error
unchanged and produces no text for an invalid judgment. -/
theorem generate_report_propagates_error (r : EvaluationRubric)
    (result : List (String × JValue)) (reasoning : List (String × Option String))
    (title : Option String) (e : EvalError)
    (h : r.validate_result result = .error e) :
    r.generate_report result reasoning title = .error e := by
  simp [EvaluationRubric.generate_report, h]

/-- Witness for C10: a judgment missing both metrics makes `generate_report`
raise the same missing-metrics error `validate_result` raises. -/
theorem generate_report_propagates_error_witness :
    ({ rubric_id := "test",
       metrics := [⟨"M1", "Must pass", true⟩, ⟨"C1", "Optional", false⟩],
       passing_score_threshold := 0 } : EvaluationRubric).generate_report [] [] none =
      .error (.missingMetrics ["M1"] ["C1"]) :=
  generate_report_propagates_error _ [] [] none _ (by decide)

theorem dictLookup_cons_ne {α : Type} (k key : String) (v : α) (res : List (String × α))
    (h : k ≠ key) : dictLookup ((k, v) :: res) key = dictLookup res key := by
  simp [dictLookup, h]

theorem firstNonBool_congr (res1 res2 : List (String × JValue)) :
    ∀ ms : List MetricDefinition,
      (∀ m ∈ ms, dictLookup res1 m.id = dictLookup res2 m.id) →
      firstNonBool res1 ms = firstNonBool res2 ms := by
  intro ms
  induction ms with
  | nil => intro _; rfl
  | cons m tail ih =>
    intro h
    have hm := h m (by simp)
    have htail := ih (fun x hx => h x (by simp [hx]))
    simp only [firstNonBool, hm]
    cases dictLookup res2 m.id with
    | none => exact htail
    | some v => cases v <;> simp [htail]

theorem list_any_congr {α : Type} (p q : α → Bool) :
    ∀ l : List α, (∀ a ∈ l, p a = q a) → l.any p = l.any q := by
  intro l
  induction l with
  | nil => intro _; rfl
  | cons x xs ih =>
    intro h
    simp only [List.any_cons, h x (by simp), ih (fun a ha => h a (by simp [ha]))]

theorem validate_result_congr (r : EvaluationRubric) (res1 res2 : List (String × JValue))
    (h : ∀ m ∈ r.metrics, dictLookup res1 m.id = dictLookup res2 m.id) :
    r.validate_result res1 = r.validate_result res2 := by
  have hfilter : r.metrics.filter (fun m => (dictLookup res1 m.id).isNone) =
      r.metrics.filter (fun m => (dictLookup res2 m.id).isNone) :=
    List.filter_congr (fun m hm => by rw [h m hm])
  have hmiss : missingIds r res1 = missingIds r res2 := by
    simp only [missingIds, hfilter]
  have hmand : mandMissing r res1 = mandMissing r res2 := by
    simp only [mandMissing, hmiss]
  have hcum : cumMissing r res1 = cumMissing r res2 := by
    simp only [cumMissing, hmiss, hmand]
  have hfnb := firstNonBool_congr res1 res2 r.metrics h
  have hmandmem : ∀ m ∈ r.mandatory_metrics, dictLookup res1 m.id = dictLookup res2 m.id := by
    intro m hm
    simp only [EvaluationRubric.mandatory_metrics] at hm
    exact h m (List.mem_of_mem_filter hm)
  have hcummem : ∀ m ∈ r.cumulative_metrics, dictLookup res1 m.id = dictLookup res2 m.id := by
    intro m hm
    simp only [EvaluationRubric.cumulative_metrics] at hm
    exact h m (List.mem_of_mem_filter hm)
  have hany : r.mandatory_metrics.any (fun m => !(resultGet res1 m.id).truthy) =
      r.mandatory_metrics.any (fun m => !(resultGet res2 m.id).truthy) :=
    list_any_congr _ _ _ (fun m hm => by simp only [resultGet, hmandmem m hm])
  have hcount : r.cumulative_metrics.countP (fun m => (resultGet res1 m.id).truthy) =
      r.cumulative_metrics.countP (fun m => (resultGet res2 m.id).truthy) :=
    List.countP_congr (fun m hm => by simp only [resultGet, hcummem m hm])
  simp only [EvaluationRubric.validate_result, hmiss, hmand, hcum, hfnb, hany, hcount]

theorem firstNonBool_none (res : List (String × JValue)) :
    ∀ ms : List MetricDefinition,
      (∀ m ∈ ms, ∃ b, dictLookup res m.id = some (JValue.bool b)) →
      firstNonBool res ms = none := by
  intro ms
  induction ms with
  | nil => intro _; rfl
  | cons m tail ih =>
    intro h
    obtain ⟨b, hb⟩ := h m (by simp)
    simp only [firstNonBool, hb]
    exact ih (fun x hx => h x (by simp [hx]))

theorem firstNonBool_spec (res : List (String × JValue)) :
    ∀ ms : List MetricDefinition,
      (∃ m ∈ ms, ∃ v, dictLookup res m.id = some v ∧ v.isBool = false) →
      ∃ m ∈ ms, ∃ v, dictLookup res m.id = some v ∧ v.isBool = false ∧
        firstNonBool res ms = some (.nonBoolValue m.id v.typeName m.rubric) := by
  intro ms
  induction ms with
  | nil => rintro ⟨m, hm, _⟩; cases hm
  | cons m tail ih =>
    rintro ⟨m0, hm0, v0, hv0, hnb0⟩
    cases hl : dictLookup res m.id with
    | some v =>
      cases hvb : v.isBool with
      | false =>
        refine ⟨m, by simp, v, hl, hvb, ?_⟩
        cases v <;> simp_all [firstNonBool, JValue.isBool]
      | true =>
        have htail : ∃ mm ∈ tail, ∃ vv, dictLookup res mm.id = some vv ∧ vv.isBool = false := by
          rcases List.mem_cons.mp hm0 with heq | hmem
          · subst heq
            rw [hl] at hv0
            cases hv0
            simp_all
          · exact ⟨m0, hmem, v0, hv0, hnb0⟩
        obtain ⟨mm, hmm, vv, h1, h2, h3⟩ := ih htail
        refine ⟨mm, by simp [hmm], vv, h1, h2, ?_⟩
        cases v <;> simp_all [firstNonBool, JValue.isBool]
    | none =>
      have htail : ∃ mm ∈ tail, ∃ vv, dictLookup res mm.id = some vv ∧ vv.isBool = false := by
        rcases List.mem_cons.mp hm0 with heq | hmem
        · subst heq
          rw [hl] at hv0
          cases hv0
        · exact ⟨m0, hmem, v0, hv0, hnb0⟩
      obtain ⟨mm, hmm, vv, h1, h2, h3⟩ := ih htail
      exact ⟨mm, by simp [hmm], vv, h1, h2, by simp [firstNonBool, hl, h3]⟩

theorem mem_missingIds_iff (r : EvaluationRubric) (result : List (String × JValue))
    (s : String) :
    s ∈ missingIds r result ↔
      (dictLookup result s = none ∧ ∃ m ∈ r.metrics, m.id = s) := by
  simp only [missingIds, List.mem_map, List.mem_filter, Option.isNone_iff_eq_none]
  constructor
  · rintro ⟨m, ⟨hm, hnone⟩, hid⟩
    exact ⟨hid ▸ hnone, m, hm, hid⟩
  · rintro ⟨hnone, m, hm, hid⟩
    exact ⟨m, ⟨hm, hid ▸ hnone⟩, hid⟩

theorem mem_mandMissing_iff (r : EvaluationRubric) (result : List (String × JValue))
    (s : String) :
    s ∈ mandMissing r result ↔
      (dictLookup result s = none ∧ ∃ m ∈ r.metrics, m.id = s ∧ m.mandatory = true) := by
  simp only [mandMissing, List.mem_filter, mem_missingIds_iff, List.any_eq_true,
    Bool.and_eq_true, beq_iff_eq]
  constructor
  · rintro ⟨⟨hnone, _⟩, m, hm, hid, hmand⟩
    exact ⟨hnone, m, hm, hid, hmand⟩
  · rintro ⟨hnone, m, hm, hid, hmand⟩
    exact ⟨⟨hnone, m, hm, hid⟩, m, hm, hid, hmand⟩

theorem mem_cumMissing_iff (r : EvaluationRubric) (result : List (String × JValue))
    (s : String) :
    s ∈ cumMissing r result ↔
      (dictLookup result s = none ∧ (∃ m ∈ r.metrics, m.id = s) ∧
       ¬∃ m ∈ r.metrics, m.id = s ∧ m.mandatory = true) := by
  simp only [cumMissing, List.mem_filter, mem_missingIds_iff, Bool.not_eq_true',
    ← Bool.not_eq_true, List.contains_eq_any_beq, List.any_eq_true, beq_iff_eq]
  constructor
  · rintro ⟨⟨hnone, hex⟩, hnc⟩
    refine ⟨hnone, hex, fun hcon => hnc ?_⟩
    exact ⟨s, (mem_mandMissing_iff r result s).mpr ⟨hnone, hcon⟩, rfl⟩
  · rintro ⟨hnone, hex, hnm⟩
    refine ⟨⟨hnone, hex⟩, fun hcon => ?_⟩
    obtain ⟨x, hx, hxs⟩ := hcon
    subst hxs
    exact hnm ((mem_mandMissing_iff r result s).mp hx).2

/-- Claim C5: a judgment missing at least one defined criterion id makes
`validate_result` raise (no boolean is returned), and the error carries the
missing mandatory ids and the missing cumulative ids separately, each under
its correct category (the rendered text shows them on the `Mandatory:` and
`Cumulative:` lines respectively). -/
theorem validate_result_missing_error (r : EvaluationRubric)
    (result : List (String × JValue))
    (h : ∃ m ∈ r.metrics, dictLookup result m.id = none) :
    ∃ mm cm, r.validate_result result = .error (.missingMetrics mm cm) ∧
      (∀ s, s ∈ mm ↔ (dictLookup result s = none ∧
         ∃ m ∈ r.metrics, m.id = s ∧ m.mandatory = true)) ∧
      (∀ s, s ∈ cm ↔ (dictLookup result s = none ∧
         (∃ m ∈ r.metrics, m.id = s) ∧
         ¬∃ m ∈ r.metrics, m.id = s ∧ m.mandatory = true)) ∧
      (mm ≠ [] → ("  Mandatory: " ++ String.intercalate ", " mm) ∈ missingLines mm cm) ∧
      (cm ≠ [] → ("  Cumulative: " ++ String.intercalate ", " cm) ∈ missingLines mm cm) := by
  have hne : (missingIds r result).isEmpty = false := by
    obtain ⟨m, hm, hl⟩ := h
    have : m.id ∈ missingIds r result :=
      (mem_missingIds_iff r result m.id).mpr ⟨hl, m, hm, rfl⟩
    cases hmiss : missingIds r result with
    | nil => rw [hmiss] at this; cases this
    | cons a l => rfl
  refine ⟨mandMissing r result, cumMissing r result, ?_,
    mem_mandMissing_iff r result, mem_cumMissing_iff r result, ?_, ?_⟩
  · simp [EvaluationRubric.validate_result, hne]
  · intro hmm
    simp [missingLines, hmm]
  · intro hcm
    simp [missingLines, hcm]

/-- Witness for C5: the two-metric rubric with an empty judgment raises the
missing-metrics error with `M1` under the mandatory category and `C1` under
the cumulative one. -/
theorem validate_result_missing_error_witness :
    ∃ mm cm,
      ({ rubric_id := "test",
         metrics := [⟨"M1", "Must pass", true⟩, ⟨"C1", "Optional", false⟩],
         passing_score_threshold := 0 } : EvaluationRubric).validate_result [] =
        .error (.missingMetrics mm cm) ∧
      (∀ s, s ∈ mm ↔ (dictLookup ([] : List (String × JValue)) s = none ∧
         ∃ m ∈ [(⟨"M1", "Must pass", true⟩ : MetricDefinition), ⟨"C1", "Optional", false⟩],
           m.id = s ∧ m.mandatory = true)) ∧
      (∀ s, s ∈ cm ↔ (dictLookup ([] : List (String × JValue)) s = none ∧
         (∃ m ∈ [(⟨"M1", "Must pass", true⟩ : MetricDefinition), ⟨"C1", "Optional", false⟩],
           m.id = s) ∧
         ¬∃ m ∈ [(⟨"M1", "Must pass", true⟩ : MetricDefinition), ⟨"C1", "Optional", false⟩],
           m.id = s ∧ m.mandatory = true)) ∧
      (mm ≠ [] → ("  Mandatory: " ++ String.intercalate ", " mm) ∈ missingLines mm cm) ∧
      (cm ≠ [] → ("  Cumulative: " ++ String.intercalate ", " cm) ∈ missingLines mm cm) :=
  validate_result_missing_error _ [] (by decide)

theorem missingIds_isEmpty_of_all_present (r : EvaluationRubric)
    (result : List (String × JValue))
    (hall : ∀ m ∈ r.metrics, (dictLookup result m.id).isSome = true) :
    (missingIds r result).isEmpty = true := by
  have : r.metrics.filter (fun m => (dictLookup result m.id).isNone) = [] := by
    rw [List.filter_eq_nil_iff]
    intro m hm
    simp [Option.isNone_iff_eq_none]
    intro hc
    have := hall m hm
    rw [hc] at this
    simp at this
  simp [missingIds, this]

/-- Claim C6: when every defined criterion id is present but some defined id
maps to a non-boolean value, `validate_result` raises an error naming that
criterion id, the type found, and the criterion's description, whose echo in
the message is truncated to at most 50 characters; keys of the mapping that
are not defined criterion ids never change the outcome. -/
theorem validate_result_nonbool_error (r : EvaluationRubric)
    (result : List (String × JValue)) (k : String) (v0 : JValue)
    (hall : ∀ m ∈ r.metrics, (dictLookup result m.id).isSome = true)
    (hbad : ∃ m ∈ r.metrics, ∃ v, dictLookup result m.id = some v ∧ v.isBool = false) :
    (∃ m ∈ r.metrics, ∃ v, dictLookup result m.id = some v ∧ v.isBool = false ∧
       r.validate_result result = .error (.nonBoolValue m.id v.typeName m.rubric) ∧
       (pyTake m.rubric 50).length ≤ 50) ∧
    ((∀ m ∈ r.metrics, m.id ≠ k) →
       r.validate_result ((k, v0) :: result) = r.validate_result result) := by
  constructor
  · obtain ⟨m, hm, v, hv, hnb, hfst⟩ := firstNonBool_spec result r.metrics hbad
    refine ⟨m, hm, v, hv, hnb, ?_, ?_⟩
    · simp [EvaluationRubric.validate_result,
        missingIds_isEmpty_of_all_present r result hall, hfst]
    · have : (pyTake m.rubric 50).length = (m.rubric.data.take 50).length := rfl
      rw [this, List.length_take]
      omega
  · intro hk
    exact validate_result_congr r _ _
      (fun m hm => dictLookup_cons_ne _ _ _ _ (fun he => hk m hm he.symm))

/-- Witness for C6: a one-metric rubric whose judgment maps `C1` to the
integer `1` raises the non-boolean error for `C1`, and adding an unrelated
extra key leaves the outcome unchanged. -/
theorem validate_result_nonbool_error_witness :
    (∃ m ∈ [(⟨"C1", "Optional", false⟩ : MetricDefinition)], ∃ v,
       dictLookup [("C1", JValue.int 1)] m.id = some v ∧ v.isBool = false ∧
       ({ rubric_id := "test", metrics := [⟨"C1", "Optional", false⟩],
          passing_score_threshold := 0 } : EvaluationRubric).validate_result
           [("C1", JValue.int 1)] =
         .error (.nonBoolValue m.id v.typeName m.rubric) ∧
       (pyTake m.rubric 50).length ≤ 50) ∧
    ((∀ m ∈ [(⟨"C1", "Optional", false⟩ : MetricDefinition)], m.id ≠ "extra") →
       ({ rubric_id := "test", metrics := [⟨"C1", "Optional", false⟩],
          passing_score_threshold := 0 } : EvaluationRubric).validate_result
           (("extra", JValue.str "note") :: [("C1", JValue.int 1)]) =
         ({ rubric_id := "test", metrics := [⟨"C1", "Optional", false⟩],
            passing_score_threshold := 0 } : EvaluationRubric).validate_result
           [("C1", JValue.int 1)]) :=
  validate_result_nonbool_error
    { rubric_id := "test", metrics := [⟨"C1", "Optional", false⟩],
      passing_score_threshold := 0 }
    [("C1", JValue.int 1)] "extra" (JValue.str "note") (by decide) (by decide)

/-- Claim C1: on a judgment that supplies a strictly boolean value for every
defined criterion id, `validate_result` returns a boolean, and it returns
`true` exactly when every mandatory criterion id maps to `true` and the
count of cumulative criterion ids mapping to `true` reaches the threshold
(both conditions being vacuously satisfiable). -/
theorem validate_result_pass_iff (r : EvaluationRubric)
    (result : List (String × JValue))
    (h : ∀ m ∈ r.metrics, ∃ b, dictLookup result m.id = some (JValue.bool b)) :
    (∃ b, r.validate_result result = .ok b) ∧
    (r.validate_result result = .ok true ↔
      ((∀ m ∈ r.metrics, m.mandatory = true →
          dictLookup result m.id = some (JValue.bool true)) ∧
       r.passing_score_threshold ≤
         (r.metrics.countP (fun m => !m.mandatory &&
            decide (dictLookup result m.id = some (JValue.bool true))) : Int))) := by
  have hne : (missingIds r result).isEmpty = true := by
    apply missingIds_isEmpty_of_all_present
    intro m hm
    obtain ⟨b, hb⟩ := h m hm
    simp [hb]
  have hfnb : firstNonBool result r.metrics = none := firstNonBool_none result r.metrics h
  have hval : r.validate_result result =
      if r.mandatory_metrics.any (fun m => !(resultGet result m.id).truthy) then .ok false
      else if ((r.cumulative_metrics.countP
          (fun m => (resultGet result m.id).truthy) : Int) < r.passing_score_threshold) then
        .ok false
      else .ok true := by
    simp [EvaluationRubric.validate_result, hne, hfnb]
  have hA : (r.mandatory_metrics.any (fun m => !(resultGet result m.id).truthy) = false) ↔
      (∀ m ∈ r.metrics, m.mandatory = true →
        dictLookup result m.id = some (JValue.bool true)) := by
    rw [List.any_eq_false]
    constructor
    · intro hf m hm hmand
      obtain ⟨b, hb⟩ := h m hm
      have hmem : m ∈ r.mandatory_metrics := by
        simp [EvaluationRubric.mandatory_metrics, List.mem_filter, hm, hmand]
      have hb2 := hf m hmem
      simp only [resultGet, hb, Option.getD_some, JValue.truthy, Bool.not_eq_true'] at hb2
      simp only [Bool.not_eq_false] at hb2
      rw [hb, hb2]
    · intro hf m hm
      simp only [EvaluationRubric.mandatory_metrics, List.mem_filter] at hm
      have := hf m hm.1 hm.2
      simp [resultGet, this, JValue.truthy]
  have hB : r.cumulative_metrics.countP (fun m => (resultGet result m.id).truthy) =
      r.metrics.countP (fun m => !m.mandatory &&
        decide (dictLookup result m.id = some (JValue.bool true))) := by
    rw [EvaluationRubric.cumulative_metrics, List.countP_filter]
    apply List.countP_congr
    intro m hm
    obtain ⟨b, hb⟩ := h m hm
    cases b <;> cases hmand : m.mandatory <;>
      simp [resultGet, hb, JValue.truthy, hmand]
  constructor
  · rw [hval]
    split_ifs <;> exact ⟨_, rfl⟩
  · rw [hval]
    cases h1 : r.mandatory_metrics.any (fun m => !(resultGet result m.id).truthy) with
    | true =>
      simp only [h1, if_true, if_pos]
      constructor
      · intro hc
        cases hc
      · rintro ⟨ha, _⟩
        rw [hA.mpr ha] at h1
        cases h1
    | false =>
      simp only [h1, Bool.false_eq_true, if_false]
      by_cases h2 : ((r.cumulative_metrics.countP
          (fun m => (resultGet result m.id).truthy) : Int) < r.passing_score_threshold)
      · rw [if_pos h2]
        constructor
        · intro hc
          cases hc
        · rintro ⟨_, hb⟩
          rw [hB] at h2
          omega
      · rw [if_neg h2]
        refine ⟨fun _ => ⟨hA.mp h1, ?_⟩, fun _ => rfl⟩
        rw [hB] at h2
        omega

/-- Witness for C1: the documented three-metric scenario (`M1` mandatory,
`C1`/`C2` cumulative, threshold 1) with judgment `M1=true, C1=true,
C2=false` yields a boolean result, and the pass characterization holds. -/
theorem validate_result_pass_iff_witness :
    (∃ b, ({ rubric_id := "test",
             metrics := [⟨"M1", "Must pass", true⟩, ⟨"C1", "Optional 1", false⟩,
               ⟨"C2", "Optional 2", false⟩],
             passing_score_threshold := 1 } : EvaluationRubric).validate_result
        [("M1", JValue.bool true), ("C1", JValue.bool true), ("C2", JValue.bool false)] =
        .ok b) ∧
    (({ rubric_id := "test",
        metrics := [⟨"M1", "Must pass", true⟩, ⟨"C1", "Optional 1", false⟩,
          ⟨"C2", "Optional 2", false⟩],
        passing_score_threshold := 1 } : EvaluationRubric).validate_result
        [("M1", JValue.bool true), ("C1", JValue.bool true), ("C2", JValue.bool false)] =
        .ok true ↔
      ((∀ m ∈ [(⟨"M1", "Must pass", true⟩ : MetricDefinition), ⟨"C1", "Optional 1", false⟩,
          ⟨"C2", "Optional 2", false⟩], m.mandatory = true →
          dictLookup [("M1", JValue.bool true), ("C1", JValue.bool true),
            ("C2", JValue.bool false)] m.id = some (JValue.bool true)) ∧
       (1 : Int) ≤
         ([(⟨"M1", "Must pass", true⟩ : MetricDefinition), ⟨"C1", "Optional 1", false⟩,
            ⟨"C2", "Optional 2", false⟩].countP (fun m => !m.mandatory &&
            decide (dictLookup [("M1", JValue.bool true), ("C1", JValue.bool true),
              ("C2", JValue.bool false)] m.id = some (JValue.bool true))) : Int))) :=
  validate_result_pass_iff
    { rubric_id := "test",
      metrics := [⟨"M1", "Must pass", true⟩, ⟨"C1", "Optional 1", false⟩,
        ⟨"C2", "Optional 2", false⟩],
      passing_score_threshold := 1 }
    [("M1", JValue.bool true), ("C1", JValue.bool true), ("C2", JValue.bool false)]
    (by decide)

theorem checkItems_none : ∀ (la lb : List AlignItem) (i : Nat),
    (∀ x ∈ la, x.isBaseModel = true) → (∀ x ∈ lb, x.isBaseModel = true) →
    checkItems la lb i = none := by
  intro la
  induction la with
  | nil => intro lb i _ _; cases lb <;> rfl
  | cons x xs ih =>
    intro lb i h1 h2
    cases lb with
    | nil => rfl
    | cons y ys =>
      have hx := h1 x (by simp)
      have hy := h2 y (by simp)
      simp only [checkItems, hx, Bool.not_true, hy, Bool.false_eq_true, if_false]
      exact ih ys (i + 1) (fun a ha => h1 a (by simp [ha])) (fun a ha => h2 a (by simp [ha]))

theorem alignedCount_models (r : EvaluationRubric) :
    ∀ (vas vbs : List (String → Bool)), vas.length = vbs.length →
    alignedCount r (vas.map AlignItem.model) (vbs.map AlignItem.model) =
      .ok ((vas.zip vbs).countP (fun p => r.passes p.1 == r.passes p.2)) := by
  intro vas
  induction vas with
  | nil =>
    intro vbs h
    cases vbs with
    | nil => rfl
    | cons vb vbs => simp at h
  | cons va vas ih =>
    intro vbs h
    cases vbs with
    | nil => simp at h
    | cons vb vbs =>
      have h' : vas.length = vbs.length := by simpa using h
      simp [alignedCount, AlignItem.hasPasses, ih vbs h', List.countP_cons, itemPasses,
        Nat.add_comm]

theorem map_model_isBaseModel (vs : List (String → Bool)) :
    ∀ x ∈ vs.map AlignItem.model, x.isBaseModel = true := by
  rintro x hx
  obtain ⟨v, _, rfl⟩ := List.mem_map.mp hx
  rfl

theorem alignLists_models (r : EvaluationRubric) (vas vbs : List (String → Bool))
    (h : vas.length = vbs.length) :
    alignLists r (vas.map AlignItem.model) (vbs.map AlignItem.model) =
      if vas.length = 0 then .ok 1
      else .ok (((vas.zip vbs).countP (fun p => r.passes p.1 == r.passes p.2) : Rat) /
        (vas.length : Rat)) := by
  unfold alignLists
  rw [if_neg (by simp [h]),
    checkItems_none _ _ 0 (map_model_isBaseModel vas) (map_model_isBaseModel vbs)]
  rw [alignedCount_models r vas vbs h]
  by_cases h0 : vas.length = 0
  · rw [if_pos (by simpa using h0), if_pos h0]
  · rw [if_neg (by simpa using h0), if_neg h0]
    simp

theorem zip_countP_passes_comm (r : EvaluationRubric) (vas vbs : List (String → Bool)) :
    (vbs.zip vas).countP (fun p => r.passes p.1 == r.passes p.2) =
      (vas.zip vbs).countP (fun p => r.passes p.1 == r.passes p.2) := by
  rw [← List.zip_swap vas vbs, List.countP_map]
  apply List.countP_congr
  intro p _
  cases ha : r.passes p.1 <;> cases hb : r.passes p.2 <;>
    simp [Function.comp, Prod.swap, ha, hb]

theorem alignLists_models_symm (r : EvaluationRubric) (vas vbs : List (String → Bool))
    (h : vas.length = vbs.length) :
    alignLists r (vas.map AlignItem.model) (vbs.map AlignItem.model) =
      alignLists r (vbs.map AlignItem.model) (vas.map AlignItem.model) := by
  rw [alignLists_models r vas vbs h, alignLists_models r vbs vas h.symm,
    zip_countP_passes_comm, h]

/-- Claim C3: on two equal-length sequences of valid evaluated-result
objects, `calculate_alignment` returns the count of positions where the two
pass outcomes agree divided by the total length — a rational in `[0, 1]` —
and returns exactly `1` on a pair of empty sequences. -/
theorem calculate_alignment_fraction (r : EvaluationRubric)
    (vas vbs : List (String → Bool)) (h : vas.length = vbs.length) :
    ∃ q : Rat,
      r.calculate_alignment (.list (vas.map AlignItem.model))
        (.list (vbs.map AlignItem.model)) = .ok q ∧
      0 ≤ q ∧ q ≤ 1 ∧
      (vas.length = 0 → q = 1) ∧
      (vas.length ≠ 0 →
        q = (((vas.zip vbs).countP (fun p => r.passes p.1 == r.passes p.2) : Rat) /
          (vas.length : Rat))) := by
  have hcalc : r.calculate_alignment (.list (vas.map AlignItem.model))
      (.list (vbs.map AlignItem.model)) =
      alignLists r (vas.map AlignItem.model) (vbs.map AlignItem.model) := by
    simp [EvaluationRubric.calculate_alignment, AlignArg.isSingleBaseModel]
  rw [hcalc, alignLists_models r vas vbs h]
  by_cases h0 : vas.length = 0
  · rw [if_pos h0]
    exact ⟨1, rfl, by norm_num, by norm_num, fun _ => rfl, fun hc => absurd h0 hc⟩
  · rw [if_neg h0]
    refine ⟨((vas.zip vbs).countP (fun p => r.passes p.1 == r.passes p.2) : Rat) /
        (vas.length : Rat), rfl, ?_, ?_, fun hc => absurd hc h0, fun _ => rfl⟩
    · apply div_nonneg <;> positivity
    · rw [div_le_one (by positivity)]
      have hle : (vas.zip vbs).countP (fun p => r.passes p.1 == r.passes p.2) ≤ vas.length := by
        calc (vas.zip vbs).countP (fun p => r.passes p.1 == r.passes p.2)
            ≤ (vas.zip vbs).length := List.countP_le_length _
          _ = min vas.length vbs.length := List.length_zip _ _
          _ = vas.length := by omega
      exact_mod_cast hle

/-- Witness for C3: a two-element comparison where exactly one position
agrees on the overall outcome. -/
theorem calculate_alignment_fraction_witness :
    ∃ q : Rat,
      ({ rubric_id := "test",
         metrics := [⟨"M1", "Must pass", true⟩, ⟨"C1", "Optional", false⟩],
         passing_score_threshold := 0 } : EvaluationRubric).calculate_alignment
        (.list ([fun _ => true, fun _ => true].map AlignItem.model))
        (.list ([fun _ => true, fun s => decide (s = "C1")].map AlignItem.model)) = .ok q ∧
      0 ≤ q ∧ q ≤ 1 ∧
      (([fun _ => true, fun _ => true] : List (String → Bool)).length = 0 → q = 1) ∧
      (([fun _ => true, fun _ => true] : List (String → Bool)).length ≠ 0 →
        q = (((([fun _ => true, fun _ => true] : List (String → Bool)).zip
            [fun _ => true, fun s => decide (s = "C1")]).countP
            (fun p =>
              ({ rubric_id := "test",
                 metrics := [⟨"M1", "Must pass", true⟩, ⟨"C1", "Optional", false⟩],
                 passing_score_threshold := 0 } : EvaluationRubric).passes p.1 ==
              ({ rubric_id := "test",
                 metrics := [⟨"M1", "Must pass", true⟩, ⟨"C1", "Optional", false⟩],
                 passing_score_threshold := 0 } : EvaluationRubric).passes p.2) : Rat) /
          ((([fun _ => true, fun _ => true] : List (String → Bool)).length : Rat)))) :=
  calculate_alignment_fraction
    { rubric_id := "test",
      metrics := [⟨"M1", "Must pass", true⟩, ⟨"C1", "Optional", false⟩],
      passing_score_threshold := 0 }
    [fun _ => true, fun _ => true] [fun _ => true, fun s => decide (s = "C1")] rfl

/-- Claim C9: `calculate_alignment` is symmetric on valid inputs, both for a
pair of single evaluated-result objects and for a pair of equal-length
sequences of them. -/
theorem calculate_alignment_symm (r : EvaluationRubric) (va vb : String → Bool)
    (vas vbs : List (String → Bool)) (h : vas.length = vbs.length) :
    (r.calculate_alignment (.item (.model va)) (.item (.model vb)) =
      r.calculate_alignment (.item (.model vb)) (.item (.model va))) ∧
    (r.calculate_alignment (.list (vas.map AlignItem.model))
        (.list (vbs.map AlignItem.model)) =
      r.calculate_alignment (.list (vbs.map AlignItem.model))
        (.list (vas.map AlignItem.model))) := by
  constructor
  · have h1 : r.calculate_alignment (.item (.model va)) (.item (.model vb)) =
        alignLists r [.model va] [.model vb] := by
      simp [EvaluationRubric.calculate_alignment, AlignArg.isSingleBaseModel,
        AlignItem.isBaseModel]
    have h2 : r.calculate_alignment (.item (.model vb)) (.item (.model va)) =
        alignLists r [.model vb] [.model va] := by
      simp [EvaluationRubric.calculate_alignment, AlignArg.isSingleBaseModel,
        AlignItem.isBaseModel]
    rw [h1, h2]
    exact alignLists_models_symm r [va] [vb] rfl
  · have h1 : r.calculate_alignment (.list (vas.map AlignItem.model))
        (.list (vbs.map AlignItem.model)) =
        alignLists r (vas.map AlignItem.model) (vbs.map AlignItem.model) := by
      simp [EvaluationRubric.calculate_alignment, AlignArg.isSingleBaseModel]
    have h2 : r.calculate_alignment (.list (vbs.map AlignItem.model))
        (.list (vas.map AlignItem.model)) =
        alignLists r (vbs.map AlignItem.model) (vas.map AlignItem.model) := by
      simp [EvaluationRubric.calculate_alignment, AlignArg.isSingleBaseModel]
    rw [h1, h2]
    exact alignLists_models_symm r vas vbs h

/-- Witness for C9: symmetry at a concrete pair of singles and a concrete
pair of one-element sequences. -/
theorem calculate_alignment_symm_witness :
    (({ rubric_id := "test", metrics := [⟨"C1", "Optional", false⟩],
        passing_score_threshold := 1 } : EvaluationRubric).calculate_alignment
        (.item (.model (fun _ => true))) (.item (.model (fun _ => false))) =
      ({ rubric_id := "test", metrics := [⟨"C1", "Optional", false⟩],
         passing_score_threshold := 1 } : EvaluationRubric).calculate_alignment
        (.item (.model (fun _ => false))) (.item (.model (fun _ => true)))) ∧
    (({ rubric_id := "test", metrics := [⟨"C1", "Optional", false⟩],
        passing_score_threshold := 1 } : EvaluationRubric).calculate_alignment
        (.list ([fun _ => true].map AlignItem.model))
        (.list ([fun _ => false].map AlignItem.model)) =
      ({ rubric_id := "test", metrics := [⟨"C1", "Optional", false⟩],
         passing_score_threshold := 1 } : EvaluationRubric).calculate_alignment
        (.list ([fun _ => false].map AlignItem.model))
        (.list ([fun _ => true].map AlignItem.model))) :=
  calculate_alignment_symm
    { rubric_id := "test", metrics := [⟨"C1", "Optional", false⟩],
      passing_score_threshold := 1 }
    (fun _ => true) (fun _ => false) [fun _ => true] [fun _ => false] rfl

theorem checkItems_first_bad : ∀ (la lb : List AlignItem) (n : Nat),
    la.length = lb.length → (∃ x ∈ la ++ lb, x.isBaseModel = false) →
    ∃ side k, checkItems la lb n = some (.itemNotBaseModel side (n + k)) ∧
      ((side = ArgSide.a ∧ ∃ x, la.get? k = some x ∧ x.isBaseModel = false) ∨
       (side = ArgSide.b ∧ ∃ x, lb.get? k = some x ∧ x.isBaseModel = false)) := by
  intro la
  induction la with
  | nil =>
    intro lb n hlen hbad
    cases lb with
    | nil =>
      obtain ⟨x, hx, _⟩ := hbad
      cases hx
    | cons y ys => simp at hlen
  | cons x xs ih =>
    intro lb n hlen hbad
    cases lb with
    | nil => simp at hlen
    | cons y ys =>
      have hlen' : xs.length = ys.length := by simpa using hlen
      cases hx : x.isBaseModel with
      | false =>
        refine ⟨ArgSide.a, 0, ?_, Or.inl ⟨rfl, x, rfl, hx⟩⟩
        simp [checkItems, hx]
      | true =>
        cases hy : y.isBaseModel with
        | false =>
          refine ⟨ArgSide.b, 0, ?_, Or.inr ⟨rfl, y, rfl, hy⟩⟩
          simp [checkItems, hx, hy]
        | true =>
          have hbad' : ∃ z ∈ xs ++ ys, z.isBaseModel = false := by
            obtain ⟨z, hz, hzb⟩ := hbad
            rcases List.mem_append.mp hz with hz1 | hz2
            · rcases List.mem_cons.mp hz1 with rfl | hz1'
              · rw [hx] at hzb; cases hzb
              · exact ⟨z, List.mem_append_left _ hz1', hzb⟩
            · rcases List.mem_cons.mp hz2 with rfl | hz2'
              · rw [hy] at hzb; cases hzb
              · exact ⟨z, List.mem_append_right _ hz2', hzb⟩
          obtain ⟨side, k, hck, hp⟩ := ih ys (n + 1) hlen' hbad'
          refine ⟨side, k + 1, ?_, ?_⟩
          · have : n + (k + 1) = (n + 1) + k := by omega
            rw [this]
            simpa [checkItems, hx, hy] using hck
          · rcases hp with ⟨hs, z, hz, hzb⟩ | ⟨hs, z, hz, hzb⟩
            · exact Or.inl ⟨hs, z, by simpa using hz, hzb⟩
            · exact Or.inr ⟨hs, z, by simpa using hz, hzb⟩

theorem alignedCount_noPasses (r : EvaluationRubric) : ∀ (la lb : List AlignItem),
    la.length = lb.length →
    (∃ x ∈ la ++ lb, x.hasPasses = false) →
    alignedCount r la lb = .error .noPasses := by
  intro la
  induction la with
  | nil =>
    intro lb hlen hbad
    cases lb with
    | nil =>
      obtain ⟨x, hx, _⟩ := hbad
      cases hx
    | cons y ys => simp at hlen
  | cons x xs ih =>
    intro lb hlen hbad
    cases lb with
    | nil => simp at hlen
    | cons y ys =>
      have hlen' : xs.length = ys.length := by simpa using hlen
      cases hx : x.hasPasses with
      | false => simp [alignedCount, hx]
      | true =>
        cases hy : y.hasPasses with
        | false => simp [alignedCount, hx, hy]
        | true =>
          have hbad' : ∃ z ∈ xs ++ ys, z.hasPasses = false := by
            obtain ⟨z, hz, hzb⟩ := hbad
            rcases List.mem_append.mp hz with hz1 | hz2
            · rcases List.mem_cons.mp hz1 with rfl | hz1'
              · rw [hx] at hzb; cases hzb
              · exact ⟨z, List.mem_append_left _ hz1', hzb⟩
            · rcases List.mem_cons.mp hz2 with rfl | hz2'
              · rw [hy] at hzb; cases hzb
              · exact ⟨z, List.mem_append_right _ hz2', hzb⟩
          simp [alignedCount, hx, hy, ih ys hlen' hbad']

/-- Counterexample for C4: a `BaseModel` element that lacks the `passes`
capability (here on side a at position 0) makes `calculate_alignment` raise
the `noPasses` error, which carries no position and no side information —
contradicting the claim that any element lacking the pass/fail capability
yields an error identifying its position and side. -/
theorem calculate_alignment_noPasses_counterexample :
    ({ rubric_id := "test", metrics := [⟨"C1", "Optional", false⟩],
       passing_score_threshold := 0 } : EvaluationRubric).calculate_alignment
        (.list [.plainModel]) (.list [.model (fun _ => true)]) = .error .noPasses ∧
    AlignItem.plainModel.hasPasses = false ∧
    AlignError.noPasses.position = none :=
  ⟨rfl, rfl, rfl⟩

/-- Claim C4 (amended): mixing a single evaluated-result object with a
sequence raises a type error (even for a one-element sequence); unequal
sequence lengths raise a value error naming both lengths; an element that is
not a `BaseModel` instance raises a type error identifying its position and
side; an element that is a `BaseModel` but lacks the pass/fail capability
raises a type error that carries no position or side information. -/
theorem calculate_alignment_errors (r : EvaluationRubric) (v : String → Bool)
    (l la lb : List AlignItem) :
    (r.calculate_alignment (.item (.model v)) (.list l) = .error .typeMismatch ∧
     r.calculate_alignment (.list l) (.item (.model v)) = .error .typeMismatch ∧
     AlignError.typeMismatch.kind = .typeError) ∧
    (la.length ≠ lb.length →
      (r.calculate_alignment (.list la) (.list lb) =
         .error (.lengthMismatch la.length lb.length) ∧
       (AlignError.lengthMismatch la.length lb.length).kind = .valueError)) ∧
    (la.length = lb.length → (∃ x ∈ la ++ lb, x.isBaseModel = false) →
      ∃ side i, r.calculate_alignment (.list la) (.list lb) =
          .error (.itemNotBaseModel side i) ∧
        (AlignError.itemNotBaseModel side i).kind = .typeError ∧
        (AlignError.itemNotBaseModel side i).position = some (side, i) ∧
        ((side = ArgSide.a ∧ ∃ x, la.get? i = some x ∧ x.isBaseModel = false) ∨
         (side = ArgSide.b ∧ ∃ x, lb.get? i = some x ∧ x.isBaseModel = false))) ∧
    (la.length = lb.length → (∀ x ∈ la ++ lb, x.isBaseModel = true) →
      (∃ x ∈ la ++ lb, x.hasPasses = false) →
      (r.calculate_alignment (.list la) (.list lb) = .error .noPasses ∧
       AlignError.noPasses.position = none ∧
       AlignError.noPasses.kind = .typeError)) := by
  have hlist : ∀ xs ys : List AlignItem,
      r.calculate_alignment (.list xs) (.list ys) = alignLists r xs ys := by
    intro xs ys
    simp [EvaluationRubric.calculate_alignment, AlignArg.isSingleBaseModel]
  refine ⟨⟨?_, ?_, rfl⟩, ?_, ?_, ?_⟩
  · simp [EvaluationRubric.calculate_alignment, AlignArg.isSingleBaseModel,
      AlignItem.isBaseModel]
  · simp [EvaluationRubric.calculate_alignment, AlignArg.isSingleBaseModel,
      AlignItem.isBaseModel]
  · intro hne
    rw [hlist]
    exact ⟨by rw [alignLists, if_pos hne], rfl⟩
  · intro heq hbad
    obtain ⟨side, k, hck, hp⟩ := checkItems_first_bad la lb 0 heq hbad
    refine ⟨side, k, ?_, rfl, rfl, by simpa using hp⟩
    rw [hlist, alignLists, if_neg (by omega)]
    simp only [Nat.zero_add] at hck
    rw [hck]
  · intro heq hmodels hbad
    have hcount := alignedCount_noPasses r la lb heq hbad
    have hnonempty : la.length ≠ 0 := by
      obtain ⟨z, hz, hzb⟩ := hbad
      rcases List.mem_append.mp hz with hz1 | hz2
      · intro h0
        rw [List.length_eq_zero] at h0
        subst h0
        cases hz1
      · intro h0
        have : lb.length = 0 := by omega
        rw [List.length_eq_zero] at this
        subst this
        cases hz2
    refine ⟨?_, rfl, rfl⟩
    rw [hlist, alignLists, if_neg (by omega),
      checkItems_none la lb 0 (fun x hx => hmodels x (List.mem_append_left _ hx))
        (fun x hx => hmodels x (List.mem_append_right _ hx))]
    simp only [hcount, if_neg hnonempty]

/-- Witness for C4 (amended): at a concrete input with a non-`BaseModel`
element on side a, the amended theorem yields the positioned type error. -/
theorem calculate_alignment_errors_witness :
    ∃ side i,
      ({ rubric_id := "test", metrics := [⟨"C1", "Optional", false⟩],
         passing_score_threshold := 0 } : EvaluationRubric).calculate_alignment
          (.list [.notModel]) (.list [.model (fun _ => true)]) =
        .error (.itemNotBaseModel side i) ∧
      (AlignError.itemNotBaseModel side i).kind = .typeError ∧
      (AlignError.itemNotBaseModel side i).position = some (side, i) ∧
      ((side = ArgSide.a ∧ ∃ x, [AlignItem.notModel].get? i = some x ∧
          x.isBaseModel = false) ∨
       (side = ArgSide.b ∧ ∃ x, [AlignItem.model (fun _ => true)].get? i = some x ∧
          x.isBaseModel = false)) :=
  (calculate_alignment_errors
    { rubric_id := "test", metrics := [⟨"C1", "Optional", false⟩],
      passing_score_threshold := 0 }
    (fun _ => true) [] [.notModel] [.model (fun _ => true)]).2.2.1 rfl
    ⟨AlignItem.notModel, by simp, rfl⟩

@[simp]
theorem charsStart_self_append : ∀ (l m : List Char), charsStart l (l ++ m) = true := by
  intro l
  induction l with
  | nil => intro m; rfl
  | cons c cs ih => intro m; simp [charsStart, ih]

theorem reasoningLines_all_arrow (reasoning : List (String × Option String)) (mid : String) :
    ∀ x ∈ reasoningLines reasoning mid, charsStart "  → ".data x.data = true := by
  intro x hx
  unfold reasoningLines at hx
  split at hx
  · split at hx
    · cases hx
    · rcases List.mem_singleton.mp hx with rfl
      simp [charsStart]
  · cases hx

theorem not_mem_metricReportBlock (result : List (String × JValue))
    (reasoning : List (String × Option String)) (m : MetricDefinition) (t : String)
    (h1 : charsStart "✓".data t.data = false)
    (h2 : charsStart "✗".data t.data = false)
    (h3 : charsStart "  → ".data t.data = false)
    (h4 : t ≠ "") :
    t ∉ metricReportBlock result reasoning m := by
  intro ht
  simp only [metricReportBlock, List.mem_append, List.mem_singleton] at ht
  rcases ht with (rfl | ht) | rfl
  · cases hpass : (resultGet result m.id).truthy
    · simp [statusSymbol, hpass, charsStart, List.append_assoc] at h2
    · simp [statusSymbol, hpass, charsStart, List.append_assoc] at h1
  · have := reasoningLines_all_arrow reasoning m.id t ht
    rw [this] at h3
    cases h3
  · exact h4 rfl

theorem not_mem_mandatorySection (r : EvaluationRubric) (result : List (String × JValue))
    (reasoning : List (String × Option String)) (t : String)
    (h0 : t ≠ "## Mandatory Criteria (ALL must pass)")
    (h1 : charsStart "✓".data t.data = false)
    (h2 : charsStart "✗".data t.data = false)
    (h3 : charsStart "  → ".data t.data = false)
    (h4 : t ≠ "")
    (h5 : charsStart "⚠️  **".data t.data = false) :
    t ∉ mandatorySection r result reasoning := by
  intro ht
  simp only [mandatorySection, List.mem_append, List.mem_cons, List.mem_singleton,
    List.not_mem_nil, or_false, List.mem_flatMap] at ht
  rcases ht with ((rfl | rfl) | ⟨m, _, hm⟩) | ht
  · exact h0 rfl
  · exact h4 rfl
  · exact not_mem_metricReportBlock result reasoning m t h1 h2 h3 h4 hm
  · split at ht
    · cases ht
    · simp only [List.mem_cons, List.mem_singleton, List.not_mem_nil, or_false] at ht
      rcases ht with rfl | rfl
      · simp [charsStart, List.append_assoc] at h5
      · exact h4 rfl

theorem not_mem_cumulativeSection (r : EvaluationRubric) (result : List (String × JValue))
    (reasoning : List (String × Option String)) (t : String)
    (h0 : t ≠ "## Cumulative Criteria")
    (hsc : charsStart "**Score: ".data t.data = false)
    (h1 : charsStart "✓".data t.data = false)
    (h2 : charsStart "✗".data t.data = false)
    (h3 : charsStart "  → ".data t.data = false)
    (h4 : t ≠ "")
    (h5 : charsStart "⚠️  **Need ".data t.data = false) :
    t ∉ cumulativeSection r result reasoning := by
  intro ht
  simp only [cumulativeSection, List.mem_append, List.mem_cons, List.mem_singleton,
    List.not_mem_nil, or_false, List.mem_flatMap] at ht
  rcases ht with ((rfl | rfl | rfl) | ⟨m, _, hm⟩) | ht
  · exact h0 rfl
  · simp [charsStart, List.append_assoc] at hsc
  · exact h4 rfl
  · exact not_mem_metricReportBlock result reasoning m t h1 h2 h3 h4 hm
  · split at ht
    · simp only [List.mem_cons, List.mem_singleton, List.not_mem_nil, or_false] at ht
      rcases ht with rfl | rfl
      · simp [charsStart, List.append_assoc] at h5
      · exact h4 rfl
    · cases ht

theorem not_mem_summarySection (r : EvaluationRubric) (result : List (String × JValue))
    (t : String)
    (ha : t ≠ "## Requirements for Passing")
    (hb : t ≠ "")
    (hc : t ≠ "**Mandatory criteria (ALL must pass):**")
    (hd : t ≠ "**Cumulative criteria:**")
    (he : charsStart "  ".data t.data = false)
    (hf : charsStart "  - Need at least ".data t.data = false)
    (hg : charsStart "  - Currently passed: ".data t.data = false)
    (hh : charsStart "  - Still need: ".data t.data = false) :
    t ∉ summarySection r result := by
  intro ht
  simp only [summarySection, List.mem_append, List.mem_cons, List.mem_singleton,
    List.not_mem_nil, or_false, List.mem_map] at ht
  rcases ht with ((rfl | rfl) | ht) | ht
  · exact ha rfl
  · exact hb rfl
  · split at ht
    · cases ht
    · simp only [List.mem_append, List.mem_cons, List.mem_singleton, List.not_mem_nil,
        or_false, List.mem_map] at ht
      rcases ht with (rfl | ⟨m, _, hms⟩) | rfl
      · exact hc rfl
      · rw [← hms] at he
        simp [charsStart, List.append_assoc] at he
      · exact hb rfl
  · split at ht
    · cases ht
    · simp only [List.mem_append, List.mem_cons, List.mem_singleton, List.not_mem_nil,
        or_false] at ht
      rcases ht with (rfl | rfl | rfl) | ht
      · exact hd rfl
      · simp [charsStart, List.append_assoc] at hf
      · simp [charsStart, List.append_assoc] at hg
      · split at ht
        · rcases List.mem_singleton.mp ht with rfl
          simp [charsStart, List.append_assoc] at hh
        · cases ht

theorem not_mem_titleBlock (r : EvaluationRubric) (title : Option String) (b : Bool)
    (t : String)
    (hA : charsStart "# ".data t.data = false)
    (hB : t ≠ "")
    (hC : charsStart "**Overall Result: ".data t.data = false) :
    t ∉ titleBlock r title b := by
  intro ht
  simp only [titleBlock, List.mem_cons, List.not_mem_nil, or_false] at ht
  rcases ht with rfl | rfl | rfl | rfl
  · simp [charsStart, List.append_assoc] at hA
  · exact hB rfl
  · simp [charsStart, List.append_assoc] at hC
  · exact hB rfl

/-- Claim C8: for a judgment accepted by `validate_result`, the report
produced by `generate_report` is the newline-join of `reportLines`, and the
mandatory-criteria heading appears among those lines exactly when the rubric
has a mandatory criterion, the cumulative-criteria heading exactly when it
has a cumulative one. -/
theorem generate_report_sections (r : EvaluationRubric)
    (result : List (String × JValue)) (reasoning : List (String × Option String))
    (title : Option String) (b : Bool)
    (h : r.validate_result result = .ok b) :
    r.generate_report result reasoning title =
      .ok (String.intercalate "\n" (reportLines r result reasoning title b)) ∧
    ("## Mandatory Criteria (ALL must pass)" ∈ reportLines r result reasoning title b ↔
      r.mandatory_metrics ≠ []) ∧
    ("## Cumulative Criteria" ∈ reportLines r result reasoning title b ↔
      r.cumulative_metrics ≠ []) := by
  refine ⟨by simp [EvaluationRubric.generate_report, h], ⟨?_, ?_⟩, ⟨?_, ?_⟩⟩
  · intro hmem hmand
    have hEmpty : r.mandatory_metrics.isEmpty = true := by rw [hmand]; rfl
    simp only [reportLines] at hmem
    rcases List.mem_append.mp hmem with hm1 | hm4
    · rcases List.mem_append.mp hm1 with hm2 | hm3
      · rcases List.mem_append.mp hm2 with hmt | hmm
        · exact not_mem_titleBlock r title b _ (by decide) (by decide) (by decide) hmt
        · rw [if_pos hEmpty] at hmm
          cases hmm
      · split at hm3
        · cases hm3
        · exact not_mem_cumulativeSection r result reasoning _ (by decide) (by decide)
            (by decide) (by decide) (by decide) (by decide) (by decide) hm3
    · exact not_mem_summarySection r result _ (by decide) (by decide) (by decide)
        (by decide) (by decide) (by decide) (by decide) (by decide) hm4
  · intro hne
    have hEmpty : r.mandatory_metrics.isEmpty = false := by
      cases hm : r.mandatory_metrics with
      | nil => exact absurd hm hne
      | cons a l => rfl
    simp only [reportLines, hEmpty, Bool.false_eq_true, if_false]
    refine List.mem_append_left _ (List.mem_append_left _ (List.mem_append_right _ ?_))
    simp [mandatorySection]
  · intro hmem hcum
    have hEmpty : r.cumulative_metrics.isEmpty = true := by rw [hcum]; rfl
    simp only [reportLines] at hmem
    rcases List.mem_append.mp hmem with hm1 | hm4
    · rcases List.mem_append.mp hm1 with hm2 | hm3
      · rcases List.mem_append.mp hm2 with hmt | hmm
        · exact not_mem_titleBlock r title b _ (by decide) (by decide) (by decide) hmt
        · split at hmm
          · cases hmm
          · exact not_mem_mandatorySection r result reasoning _ (by decide) (by decide)
              (by decide) (by decide) (by decide) (by decide) hmm
      · rw [if_pos hEmpty] at hm3
        cases hm3
    · exact not_mem_summarySection r result _ (by decide) (by decide) (by decide)
        (by decide) (by decide) (by decide) (by decide) (by decide) hm4
  · intro hne
    have hEmpty : r.cumulative_metrics.isEmpty = false := by
      cases hm : r.cumulative_metrics with
      | nil => exact absurd hm hne
      | cons a l => rfl
    simp only [reportLines, hEmpty, Bool.false_eq_true, if_false]
    refine List.mem_append_left _ (List.mem_append_right _ ?_)
    simp [cumulativeSection]

/-- Witness for C8: a valid judgment on the mixed two-metric rubric yields a
report whose lines contain both section headings. -/
theorem generate_report_sections_witness :
    ({ rubric_id := "test",
       metrics := [⟨"M1", "Must pass", true⟩, ⟨"C1", "Optional", false⟩],
       passing_score_threshold := 1 } : EvaluationRubric).generate_report
        [("M1", JValue.bool true), ("C1", JValue.bool true)] [] none =
      .ok (String.intercalate "\n"
        (reportLines
          { rubric_id := "test",
            metrics := [⟨"M1", "Must pass", true⟩, ⟨"C1", "Optional", false⟩],
            passing_score_threshold := 1 }
          [("M1", JValue.bool true), ("C1", JValue.bool true)] [] none true)) ∧
    ("## Mandatory Criteria (ALL must pass)" ∈
        reportLines
          { rubric_id := "test",
            metrics := [⟨"M1", "Must pass", true⟩, ⟨"C1", "Optional", false⟩],
            passing_score_threshold := 1 }
          [("M1", JValue.bool true), ("C1", JValue.bool true)] [] none true ↔
      ({ rubric_id := "test",
         metrics := [⟨"M1", "Must pass", true⟩, ⟨"C1", "Optional", false⟩],
         passing_score_threshold := 1 } : EvaluationRubric).mandatory_metrics ≠ []) ∧
    ("## Cumulative Criteria" ∈
        reportLines
          { rubric_id := "test",
            metrics := [⟨"M1", "Must pass", true⟩, ⟨"C1", "Optional", false⟩],
            passing_score_threshold := 1 }
          [("M1", JValue.bool true), ("C1", JValue.bool true)] [] none true ↔
      ({ rubric_id := "test",
         metrics := [⟨"M1", "Must pass", true⟩, ⟨"C1", "Optional", false⟩],
         passing_score_threshold := 1 } : EvaluationRubric).cumulative_metrics ≠ []) :=
  generate_report_sections
    { rubric_id := "test",
      metrics := [⟨"M1", "Must pass", true⟩, ⟨"C1", "Optional", false⟩],
      passing_score_threshold := 1 }
    [("M1", JValue.bool true), ("C1", JValue.bool true)] [] none true (by decide)

end Teval
